import Mathlib

/-
Verification of the functime evaluation module (src/functime/evaluation.py)
against its specification.

Embedding conventions:
* Panels are lists of three-field rows (entity, time, value); values are ℚ
  (exact rationals stand in for the floats of the source; Float32 casts are
  dropped, and division by zero yields 0, the ℚ convention, noted wherever
  it can matter).
* polars group-by is modelled as grouping by first appearance order of the
  entity keys; within-group row order is preserved, as polars does.
* Square roots and normal quantiles are host/scipy numeric primitives; they
  enter the embedding as function parameters (sqrtF, normPpf), exactly where
  the source calls .sqrt() and norm.ppf.
* Python runtime failures (TypeError from a bad keyword argument, KeyError
  from a dict lookup, AttributeError from getattr/attribute access, shape
  errors raised by polars) are modelled with Except PyError.
-/

set_option maxHeartbeats 1000000

namespace Functime

/-- Errors raised by the Python runtime or the engines while evaluating the
embedded code. -/
inductive PyError
  | typeError
  | keyError
  | attributeError
  | shapeError
  | insufficientSamples
deriving DecidableEq

/-- Entities are the panel's discrete keys. -/
abbrev Entity := String

/-- One row of a three-column panel: (entity, time, value). -/
structure Row where
  entity : Entity
  time : Int
  value : ℚ
deriving DecidableEq

/-- A panel: rows, already time-ordered within each entity (§3 invariant). -/
abbrev Panel := List Row

/-- A ranked/score table: one (entity, value) row per entity. -/
abbrev ScoreTable := List (Entity × ℚ)

/-- Boolean success test for Except results. -/
def exceptOk {ε α : Type} : Except ε α → Bool
  | .ok _ => true
  | .error _ => false

/-- First-appearance-order deduplication: the group order used for groupby. -/
def uniqueAux (seen : List Entity) : List Entity → List Entity
  | [] => []
  | e :: es => if e ∈ seen then uniqueAux seen es else e :: uniqueAux (e :: seen) es

/-- The distinct entities of a panel, in first-appearance order. -/
def panelEntities (X : Panel) : List Entity := uniqueAux [] (X.map Row.entity)

/-- The value column of one entity's group, in row order. -/
def groupVals (X : Panel) (e : Entity) : List ℚ :=
  (X.filter (fun r => r.entity == e)).map Row.value

/-- polars pl.mean over a group (empty list: ℚ division by zero gives 0;
groups produced by groupby are never empty). -/
def mean (l : List ℚ) : ℚ := l.sum / (l.length : ℚ)

/-- Insertion step for an ascending sort of rationals. -/
def insertRat (x : ℚ) : List ℚ → List ℚ
  | [] => [x]
  | y :: ys => if x ≤ y then x :: y :: ys else y :: insertRat x ys

/-- Ascending insertion sort of rationals. -/
def sortRat : List ℚ → List ℚ
  | [] => []
  | x :: xs => insertRat x (sortRat xs)

/-- polars pl.median: the middle element, or the mean of the two middle
elements for even length. -/
def median (l : List ℚ) : ℚ :=
  let s := sortRat l
  let n := s.length
  if n % 2 = 1 then s.getD (n / 2) 0 else (s.getD (n / 2 - 1) 0 + s.getD (n / 2) 0) / 2

/-- Sample variance with a degrees-of-freedom adjustment, as polars computes
it: sum of squared deviations divided by (len - ddof). -/
def varDdof (l : List ℚ) (ddof : ℕ) : ℚ :=
  (l.map (fun v => (v - mean l) ^ 2)).sum / ((l.length : ℚ) - (ddof : ℚ))

/-- Sample covariance of paired observations with a ddof adjustment. -/
def covDdof (ps : List (ℚ × ℚ)) (ddof : ℕ) : ℚ :=
  (ps.map (fun p => (p.1 - mean (ps.map Prod.fst)) * (p.2 - mean (ps.map Prod.snd)))).sum /
    ((ps.length : ℚ) - (ddof : ℚ))

/-- Row alignment of a column x with x.shift(i): polars pairs row t of x with
row t-i; the i null rows at the start drop out, leaving the n-i overlapping
pairs (x[i+t], x[t]). -/
def alignedPairs (xs : List ℚ) (i : ℕ) : List (ℚ × ℚ) := (xs.drop i).zip xs

/-- pl.corr(x, x.shift(i), ddof): Pearson correlation of the aligned pairs,
cov / (std * std), with the stds obtained through the numeric sqrt primitive
sqrtF. -/
def plCorrShift (sqrtF : ℚ → ℚ) (xs : List ℚ) (i : ℕ) (ddof : ℕ) : ℚ :=
  covDdof (alignedPairs xs i) ddof /
    (sqrtF (varDdof ((alignedPairs xs i).map Prod.fst) ddof) *
     sqrtF (varDdof ((alignedPairs xs i).map Prod.snd) ddof))

/-- Per-entity demeaning: (pl.col(target) - pl.col(target).mean()).over(entity). -/
def demean (xs : List ℚ) : List ℚ := xs.map (fun v => v - mean xs)

/-- Running sums: cumsumFrom a [x1, x2, ...] = [a+x1, a+x1+x2, ...]. -/
def cumsumFrom (a : ℚ) : List ℚ → List ℚ
  | [] => []
  | x :: xs => (a + x) :: cumsumFrom (a + x) xs

/-- polars Expr.cumsum. -/
def cumsum (l : List ℚ) : List ℚ := cumsumFrom 0 l

/-- Sum of f over n consecutive lags starting at s:
sumFrom f s n = f s + f (s+1) + ... + f (s+n-1). -/
def sumFrom (f : ℕ → ℚ) (s : ℕ) : ℕ → ℚ
  | 0 => 0
  | n + 1 => f s + sumFrom f (s + 1) n

/-- The engine maps an aggregation over the groups; an exception raised in
any group aborts the whole query. -/
def mapExcept {α β : Type} (f : α → Except PyError β) : List α → Except PyError (List β)
  | [] => .ok []
  | x :: xs =>
    match f x with
    | .error e => .error e
    | .ok y =>
      match mapExcept f xs with
      | .error e => .error e
      | .ok ys => .ok (y :: ys)

/-- Sort-key comparison: does value a come (weakly) before value b in the
requested direction? -/
def keyBefore (descending : Bool) (a b : ℚ) : Prop :=
  if descending then b ≤ a else a ≤ b

instance (descending : Bool) (a b : ℚ) : Decidable (keyBefore descending a b) := by
  unfold keyBefore
  infer_instance

/-- Insertion step for sorting a score table by its value column.  Equal keys
keep their incoming order. -/
def insertScore (descending : Bool) (x : Entity × ℚ) :
    List (Entity × ℚ) → List (Entity × ℚ)
  | [] => [x]
  | y :: ys =>
    if keyBefore descending x.2 y.2 then x :: y :: ys
    else y :: insertScore descending x ys

/-- DataFrame.sort by the value column. -/
def sortScores (descending : Bool) : List (Entity × ℚ) → List (Entity × ℚ)
  | [] => []
  | x :: xs => insertScore descending x (sortScores descending xs)

/-! ### ACF engine (evaluation.py lines 61-131) -/

/-- evaluation.py lines 61-70, acf_formula: the list
[lit 1.0 as acorr_0, pl.corr(x, x.shift(i), ddof=i) for i in 1..max_lags]
together with n = x.len(), the original group length. -/
def acf_formula (sqrtF : ℚ → ℚ) (xs : List ℚ) (maxLags : ℕ) : List ℚ × ℕ :=
  ((1 : ℚ) :: (List.range' 1 maxLags).map (fun i => plCorrShift sqrtF xs i i),
    xs.length)

/-- evaluation.py lines 73-77, acf_confint_formula:
var_acf = 1 + 2 * (acf ** 2).cumsum() over WHATEVER acf column it receives,
and intervals = ppf * ((1/length) * var_acf).sqrt(). -/
def acf_confint_formula (sqrtF : ℚ → ℚ) (acfL : List ℚ) (n : ℕ) (ppf : ℚ) :
    List ℚ :=
  (cumsum (acfL.map (fun a => a ^ 2))).map
    (fun c => ppf * sqrtF ((1 / (n : ℚ)) * (1 + 2 * c)))

/-- evaluation.py lines 99-112: the per-entity interval column is the
concatenation of interval_0 = 0, interval_1 = ppf * sqrt(1/n), and
acf_confint_formula(acf, length, ppf).slice(1, max_lags - 1), where the acf
column fed to acf_confint_formula starts at lag 0 (acorr_0 = 1.0 included).
The series is demeaned per entity beforehand (lines 86-90). -/
def acfEntityIntervals (sqrtF : ℚ → ℚ) (ppf : ℚ) (xs : List ℚ) (maxLags : ℕ) :
    List ℚ :=
  [0, ppf * sqrtF (1 / (xs.length : ℚ))] ++
    ((acf_confint_formula sqrtF ((acf_formula sqrtF (demean xs) maxLags).1)
        (acf_formula sqrtF (demean xs) maxLags).2 ppf).drop 1).take (maxLags - 1)

/-- evaluation.py lines 80-131, acf: ppf = norm.ppf(1 - alpha/2) through the
external quantile primitive normPpf; per entity, the lag-0-through-max_lags
acf list and the interval list, exploded together (polars raises a shape
error if the two list columns have different lengths), then
confint_lower = acf - interval and confint_upper = acf + interval.
No parameter validation is performed on max_lags or alpha. -/
def acf (sqrtF normPpf : ℚ → ℚ) (X : Panel) (maxLags : ℕ) (alpha : ℚ) :
    Except PyError (List (Entity × (List ℚ × List ℚ × List ℚ))) :=
  mapExcept (fun e =>
    if ((acf_formula sqrtF (demean (groupVals X e)) maxLags).1).length =
        (acfEntityIntervals sqrtF (normPpf (1 - alpha / 2))
          (groupVals X e) maxLags).length then
      .ok (e, (acf_formula sqrtF (demean (groupVals X e)) maxLags).1,
        (((acf_formula sqrtF (demean (groupVals X e)) maxLags).1).zip
          (acfEntityIntervals sqrtF (normPpf (1 - alpha / 2))
            (groupVals X e) maxLags)).map (fun p => p.1 - p.2),
        (((acf_formula sqrtF (demean (groupVals X e)) maxLags).1).zip
          (acfEntityIntervals sqrtF (normPpf (1 - alpha / 2))
            (groupVals X e) maxLags)).map (fun p => p.1 + p.2))
    else .error .shapeError) (panelEntities X)

/-- The confidence-interval formula as claim C2 (and spec §4.1 step 4) states
it: interval[k] = ppf * sqrt(var_acf[k] / n) with
var_acf[k] = 1 + 2 * sum over j from 1 to k-1 of acf[j]^2, the lag-0
autocorrelation excluded from the summed terms. -/
def bartlettIntervalSpec (sqrtF : ℚ → ℚ) (acfL : List ℚ) (n : ℕ) (ppf : ℚ)
    (k : ℕ) : ℚ :=
  ppf * sqrtF ((1 + 2 * sumFrom (fun j => (acfL.getD j 0) ^ 2) 1 (k - 1)) / (n : ℚ))

/-- The identity function on ℚ, used as a transparent stand-in for the
numeric sqrt/quantile primitives in concrete evaluations. -/
def idQ : ℚ → ℚ := fun q => q

/-! ### Ranking engine (evaluation.py lines 23-34, 173-239) -/

/-- The keys of the dict built by SORT_BY_TO_METRIC at evaluation.py lines
23-34 (the metric callables themselves live in functime.metrics, outside
this repository slice).  Building the dict never fails; as recorded at
_rank_entities_by_score below, the dict is then called rather than
subscripted, so these keys are never actually looked up. -/
def SORT_BY_TO_METRIC_keys : List String :=
  ["mae", "mape", "mase", "mse", "overforecast", "rmse", "rmsse", "smape", "underforecast"]

/-- getattr(pl, sort_by): resolving a summary-statistic name to the polars
module-level aggregation.  polars exposes pl.mean, pl.median and pl.std
(pl.std with its default ddof = 1, via the numeric sqrt primitive); there is
no module-level pl.cv, and unknown names raise AttributeError (modelled as
none). -/
def statFn (sqrtF : ℚ → ℚ) : String → Option (List ℚ → ℚ)
  | "mean" => some mean
  | "median" => some median
  | "std" => some (fun l => sqrtF (varDdof l 1))
  | _ => none

/-- evaluation.py lines 173-181: group the true-value panel by entity, apply
getattr(pl, sort_by) to the target column, sort by the resulting column. -/
def _rank_entities_by_stat (sqrtF : ℚ → ℚ) (y_true : Panel) (sort_by : String)
    (descending : Bool) : Except PyError ScoreTable :=
  match statFn sqrtF sort_by with
  | none => .error .attributeError
  | some f =>
    .ok (sortScores descending
      ((panelEntities y_true).map (fun e => (e, f (groupVals y_true e)))))

/-- evaluation.py lines 184-193: line 187 computes
scoring = SORT_BY_TO_METRIC(y_true)(sort_by) — it CALLS the dict returned by
SORT_BY_TO_METRIC(y_true) instead of subscripting it, so Python raises
TypeError ('dict' object is not callable) for every criterion, recognized or
not, before any key lookup or scoring happens.  The metric registry
capability and the panels are never consulted (the parameter is kept so the
signature mirrors the dependency the code was written against). -/
def _rank_entities_by_score (_metricReg : String → Panel → Panel → ScoreTable)
    (_y_true _y_pred : Panel) (_sort_by : String) (_descending : Bool) :
    Except PyError ScoreTable :=
  .error .typeError

/-- evaluation.py lines 196-207: dispatch on the criterion family. -/
def _rank_entities (sqrtF : ℚ → ℚ) (metricReg : String → Panel → Panel → ScoreTable)
    (y_pred y_true : Panel) (sort_by : String) (descending : Bool) :
    Except PyError ScoreTable :=
  if sort_by ∈ ["mean", "median", "std", "cv"] then
    _rank_entities_by_stat sqrtF y_true sort_by descending
  else
    _rank_entities_by_score metricReg y_true y_pred sort_by descending

/-- evaluation.py lines 210-219: rank_forecasts forwards to _rank_entities
with the keyword argument y=y_true, but _rank_entities declares no parameter
named y (its panels are y_pred and y_true), so Python raises TypeError on
every call, before any ranking work happens. -/
def rank_forecasts (_sqrtF : ℚ → ℚ) (_metricReg : String → Panel → Panel → ScoreTable)
    (_y_pred _y_true : Panel) (_descending : Bool) (_sort_by : String) :
    Except PyError ScoreTable :=
  .error .typeError

/-- evaluation.py lines 222-239: rank_residuals builds the sort_by_to_expr
dict, looks the criterion up, aggregates per entity and sorts ascending.
The dict holds only the keys bias, abs_bias and normality:

* bias and abs_bias both map to pl.col(target).mean().abs(), the absolute
  value of the per-entity mean residual;
* the normality entry is pl.col(target).apply(normality_test): in a groupby
  aggregation, apply hands each group to the callable as a Series, and the
  frame-level normality_test immediately unpacks X.columns, which a Series
  does not have, so the aggregation raises AttributeError when it runs;
* any other criterion (in particular autocor_lb and autocor_bg, both listed
  in the RESIDUALS_SORT_BY Literal type) raises KeyError at the lookup.

The max_lags and alpha parameters are accepted and never used. -/
def rank_residuals (y_resids : Panel) (sort_by : String) (_max_lags : ℕ)
    (_alpha : ℚ) : Except PyError ScoreTable :=
  match sort_by with
  | "bias" =>
    .ok (sortScores false
      ((panelEntities y_resids).map (fun e => (e, |mean (groupVals y_resids e)|))))
  | "abs_bias" =>
    .ok (sortScores false
      ((panelEntities y_resids).map (fun e => (e, |mean (groupVals y_resids e)|))))
  | "normality" => .error .attributeError
  | _ => .error .keyError

/-- The aggregation claim C4 states for bias and abs_bias: the mean of the
absolute values of the entity's residuals. -/
def meanAbsResidual (l : List ℚ) : ℚ := mean (l.map (fun v => |v|))

/-! ### Normality engine (evaluation.py lines 165-170) -/

/-- Modelled from the spec: the external normality-test primitive
(scipy.stats.normaltest, a D'Agostino-Pearson omnibus statistic) lives
outside this repository slice.  Per spec §4.3 it requires a minimum sample
size (8 observations, the minimum of the underlying skewtest) and fails
below that with an InsufficientSamples condition; at or above the minimum it
returns the test statistic, whose numeric value is external to this module
and is modelled as an opaque 0. -/
def normaltestModel (l : List ℚ) : Except PyError ℚ :=
  if l.length < 8 then .error .insufficientSamples else .ok 0

/-- evaluation.py lines 165-170: X.groupby(entity).agg(col.apply(prim)),
where prim is the normality primitive applied to each group's value series;
an exception raised in any group aborts the whole query. -/
def normality_test (prim : List ℚ → Except PyError ℚ) (X : Panel) :
    Except PyError ScoreTable :=
  mapExcept (fun e => (prim (groupVals X e)).map (fun v => (e, v)))
    (panelEntities X)

/-! ### FVA ranking (evaluation.py lines 242-268) -/

/-- The prediction argument a metric receives from rank_fva: a real panel,
or the empty dict {} that rank_fva substitutes for an omitted y_pred_bench. -/
inductive PanelArg
  | panel (p : Panel)
  | emptyDict
deriving DecidableEq

/-- A scoring-metric capability: scoring(y_true, y_pred) returning one score
per entity, or a failure when the prediction argument is unusable. -/
abbrev Metric := Panel → PanelArg → Except PyError ScoreTable

/-- Modelled from the spec: the default scoring metric smape lives in
functime.metrics, outside this repository slice.  Per spec §1/§6 a metric
consumes three-column panel tables, grouping by the entity column, and
returns one score per entity; sMAPE per entity is the mean of
2|p - t| / (|t| + |p|) over the entity's paired rows.  A plain dict is not a
panel table and has no columns to group by, so the metric call fails on the
empty-dict argument with the generic attribute failure. -/
def smapeModel : Metric := fun y_true y_pred =>
  match y_pred with
  | .emptyDict => .error .attributeError
  | .panel yp =>
    .ok ((panelEntities y_true).map (fun e =>
      (e, mean (((groupVals y_true e).zip (groupVals yp e)).map
        (fun q => 2 * |q.2 - q.1| / (|q.1| + |q.2|))))))

/-- One row of the uplift table produced by rank_fva. -/
structure FvaRow where
  entity : Entity
  uplift : Option ℚ
  has_uplift : Option Bool
deriving DecidableEq

/-- scores.join(scores_bench, how="left", on=entity): every score row is
paired with each bench row of equal key, or with a missing value when no
bench key matches. -/
def leftJoinScores (scores bench : ScoreTable) :
    List (Entity × ℚ × Option ℚ) :=
  scores.flatMap (fun s =>
    match bench.filter (fun b => b.1 == s.1) with
    | [] => [(s.1, s.2, none)]
    | ms => ms.map (fun b => (s.1, s.2, some b.2)))

/-- uplift = bench_score - score and has_uplift = uplift > 0; a missing
bench score propagates into both columns (polars null arithmetic and null
comparison). -/
def fvaRowOf (t : Entity × ℚ × Option ℚ) : FvaRow :=
  { entity := t.1
    uplift := t.2.2.map (fun b => b - t.2.1)
    has_uplift := t.2.2.map (fun b => decide (0 < b - t.2.1)) }

/-- Weak order on optional uplift values with missing values first (polars
sorts nulls first by default). -/
def optLe (a b : Option ℚ) : Prop :=
  match a, b with
  | none, _ => True
  | some _, none => False
  | some x, some y => x ≤ y

instance (a b : Option ℚ) : Decidable (optLe a b) :=
  match a, b with
  | none, _ => isTrue trivial
  | some _, none => isFalse (fun hh => hh)
  | some x, some y => inferInstanceAs (Decidable (x ≤ y))

/-- Does row a come (weakly) before row b in the requested sort direction? -/
def upliftBefore (descending : Bool) (a b : Option ℚ) : Prop :=
  if descending then optLe b a else optLe a b

instance (descending : Bool) (a b : Option ℚ) :
    Decidable (upliftBefore descending a b) := by
  unfold upliftBefore
  infer_instance

/-- Insertion step for sorting the uplift table by its uplift column. -/
def insertFva (descending : Bool) (x : FvaRow) : List FvaRow → List FvaRow
  | [] => [x]
  | y :: ys =>
    if upliftBefore descending x.uplift y.uplift then x :: y :: ys
    else y :: insertFva descending x ys

/-- DataFrame.sort by the uplift column. -/
def sortFva (descending : Bool) : List FvaRow → List FvaRow
  | [] => []
  | x :: xs => insertFva descending x (sortFva descending xs)

/-- evaluation.py lines 242-268, rank_fva: scoring defaults to smape; a None
y_pred_bench is replaced by the empty dict {}, which is then passed to the
scoring metric as its prediction argument; scores are left-joined with the
bench scores on the entity column, uplift and has_uplift are derived, and
the table is sorted by uplift. -/
def rank_fva (y_true y_pred : Panel) (y_pred_bench : Option Panel)
    (scoringOpt : Option Metric) (descending : Bool) :
    Except PyError (List FvaRow) :=
  match (scoringOpt.getD smapeModel) y_true (.panel y_pred) with
  | .error e => .error e
  | .ok scores =>
    match (scoringOpt.getD smapeModel) y_true
        (match y_pred_bench with
         | none => .emptyDict
         | some p => .panel p) with
    | .error e => .error e
    | .ok scores_bench =>
      .ok (sortFva descending ((leftJoinScores scores scores_bench).map fvaRowOf))

/-- A concrete scoring-metric stand-in used by the C7 witness: one entity,
score 1, regardless of input. -/
def scoringW : Metric := fun _ _ => .ok [("A", 1)]

/-- A panel whose A entity has 8 rows and whose B entity has only 3: B is
below the normality primitive's minimum sample size. -/
def xNorm : Panel :=
  [⟨"A", 0, 1⟩, ⟨"A", 1, 2⟩, ⟨"A", 2, 3⟩, ⟨"A", 3, 4⟩, ⟨"A", 4, 5⟩,
   ⟨"A", 5, 6⟩, ⟨"A", 6, 7⟩, ⟨"A", 7, 8⟩,
   ⟨"B", 0, 1⟩, ⟨"B", 1, 2⟩, ⟨"B", 2, 3⟩]

/-! ### Ljung-Box engine (evaluation.py lines 134-162) -/

/-- evaluation.py lines 135-143, the inner _acf_sqr_ratio helper: for lag i
in 1..max_lags, square pl.corr(x, x.shift(i), ddof=i) and divide by (n - i),
where n = x.len() is the original group length. -/
def ljung_box_terms (sqrtF : ℚ → ℚ) (xs : List ℚ) (maxLags : ℕ) : List ℚ :=
  (List.range' 1 maxLags).map (fun i =>
    (plCorrShift sqrtF xs i i) ^ 2 / ((xs.length : ℚ) - (i : ℚ)))

/-- evaluation.py lines 145-147, the inner _qstat_ljung_box helper:
qstats = length * (length + 2) * acf.cumsum(). -/
def qstat_ljung_box (ratios : List ℚ) (n : ℕ) : List ℚ :=
  (cumsum ratios).map (fun c => (n : ℚ) * ((n : ℚ) + 2) * c)

/-- evaluation.py lines 134-162: for each entity, the Q-statistic sequence
computed from the raw (not demeaned) target column. -/
def ljung_box_test (sqrtF : ℚ → ℚ) (X : Panel) (maxLags : ℕ) :
    List (Entity × List ℚ) :=
  (panelEntities X).map (fun e =>
    (e, qstat_ljung_box (ljung_box_terms sqrtF (groupVals X e) maxLags)
          (groupVals X e).length))

/-! ### Concrete inputs used by the claim theorems -/

/-- True-value panel with per-entity means A:5, B:1, C:3 (two rows each). -/
def yTrueC1 : Panel :=
  [⟨"A", 0, 4⟩, ⟨"A", 1, 6⟩, ⟨"B", 0, 0⟩, ⟨"B", 1, 2⟩, ⟨"C", 0, 3⟩, ⟨"C", 1, 3⟩]

/-- An arbitrary prediction panel over the same entities. -/
def yPredC1 : Panel :=
  [⟨"A", 0, 0⟩, ⟨"A", 1, 0⟩, ⟨"B", 0, 0⟩, ⟨"B", 1, 0⟩, ⟨"C", 0, 0⟩, ⟨"C", 1, 0⟩]

/-- A numeric sqrt stand-in (the summary-statistic path for mean never calls it). -/
def zeroF : ℚ → ℚ := fun _ => 0

/-- A trivial metric registry stand-in (the summary-statistic path never calls it). -/
def reg0 : String → Panel → Panel → ScoreTable := fun _ _ _ => []

/-- A one-entity residual panel with residuals -1 and 1: the mean residual is
0 while the mean absolute residual is 1. -/
def yResC4 : Panel := [⟨"A", 0, -1⟩, ⟨"A", 1, 1⟩]

/-- A one-entity panel of length 4 with values 1, 2, 3, 4. -/
def xLB : Panel := [⟨"A", 0, 1⟩, ⟨"A", 1, 2⟩, ⟨"A", 2, 3⟩, ⟨"A", 3, 4⟩]

/-! ### Cumulative-sum and range lemmas -/

theorem cumsumFrom_length (a : ℚ) (l : List ℚ) :
    (cumsumFrom a l).length = l.length := by
  induction l generalizing a with
  | nil => rfl
  | cons x xs ih => simp [cumsumFrom, ih]

theorem cumsumFrom_getElem? (l : List ℚ) (a : ℚ) (j : ℕ) (hj : j < l.length) :
    (cumsumFrom a l)[j]? = some (a + (l.take (j + 1)).sum) := by
  induction l generalizing a j with
  | nil => simp at hj
  | cons x xs ih =>
    cases j with
    | zero => simp [cumsumFrom]
    | succ j =>
      have hj' : j < xs.length := by simpa using hj
      rw [cumsumFrom]
      simp only [List.getElem?_cons_succ]
      rw [ih (a + x) j hj']
      simp [List.take, List.sum_cons]
      ring

theorem take_range' (s k n : ℕ) (h : k ≤ n) :
    (List.range' s n).take k = List.range' s k := by
  induction k generalizing s n with
  | zero => simp
  | succ k ih =>
    cases n with
    | zero => omega
    | succ n =>
      rw [List.range'_succ, List.range'_succ, List.take_succ_cons]
      rw [ih (s + 1) n (by omega)]

theorem sum_map_range' (g : ℕ → ℚ) (s n : ℕ) :
    ((List.range' s n).map g).sum = sumFrom g s n := by
  induction n generalizing s with
  | zero => simp [sumFrom]
  | succ n ih => simp [List.range'_succ, sumFrom, ih]

theorem chain'_le_cumsumFrom (l : List ℚ) (a : ℚ) (h : ∀ x ∈ l, 0 ≤ x) :
    List.Chain' (· ≤ ·) (cumsumFrom a l) := by
  induction l generalizing a with
  | nil => simp [cumsumFrom]
  | cons x xs ih =>
    rw [cumsumFrom]
    refine List.chain'_cons'.mpr ⟨?_, ih (a + x) (fun y hy => h y (by simp [hy]))⟩
    intro b hb
    cases xs with
    | nil => simp [cumsumFrom] at hb
    | cons x2 xs2 =>
      rw [cumsumFrom] at hb
      simp only [List.head?_cons, Option.mem_def, Option.some.injEq] at hb
      have hx2 : 0 ≤ x2 := h x2 (by simp)
      rw [← hb]
      linarith

/-! ### Sort membership lemmas -/

theorem mem_insertScore {d : Bool} {x z : Entity × ℚ} {l : List (Entity × ℚ)}
    (h : z ∈ insertScore d x l) : z = x ∨ z ∈ l := by
  induction l with
  | nil =>
    rw [insertScore] at h
    exact Or.inl (List.mem_singleton.mp h)
  | cons y ys ih =>
    rw [insertScore] at h
    split at h
    · rcases List.mem_cons.mp h with h' | h'
      · exact Or.inl h'
      · exact Or.inr h'
    · rcases List.mem_cons.mp h with h' | h'
      · exact Or.inr (List.mem_cons.mpr (Or.inl h'))
      · rcases ih h' with h'' | h''
        · exact Or.inl h''
        · exact Or.inr (List.mem_cons.mpr (Or.inr h''))

theorem mem_sortScores {d : Bool} {z : Entity × ℚ} {l : List (Entity × ℚ)}
    (h : z ∈ sortScores d l) : z ∈ l := by
  induction l with
  | nil => simp [sortScores] at h
  | cons y ys ih =>
    rw [sortScores] at h
    rcases mem_insertScore h with h' | h'
    · simp [h']
    · simp [ih h']

/-! ### Claim C1 -/

/-- C1: the claim says rank_forecasts(y_pred, y_true, sort_by="mean",
descending=False) on a true-value panel with means {A:5, B:1, C:3} returns
the entity order [B, C, A].  The code instead raises TypeError on every call:
rank_forecasts passes the keyword argument y=y_true, which _rank_entities
does not declare.  The dispatcher _rank_entities itself, invoked as its
signature requires, does produce the claimed ascending-by-mean order, which
shows the claim captures the intended behavior and the keyword is a slip. -/
theorem C1_rank_forecasts_typeerror :
    rank_forecasts zeroF reg0 yPredC1 yTrueC1 false "mean" = .error .typeError ∧
    _rank_entities zeroF reg0 yPredC1 yTrueC1 "mean" false =
      .ok [("B", 1), ("C", 3), ("A", 5)] := by
  constructor
  · rfl
  · simp [_rank_entities, _rank_entities_by_stat, statFn, panelEntities, uniqueAux,
      yPredC1, yTrueC1, groupVals, mean, sortScores, insertScore, keyBefore]
    norm_num [sortScores, insertScore, keyBefore]

/-! ### Claim C4 -/

/-- C4 counterexample: for the criterion bias (same expression as abs_bias),
the code sorts by |mean(residuals)|, not by the mean absolute residual the
claim states.  On residuals [-1, 1] the code's value is 0 while the claimed
aggregation gives 1, so the returned table differs from the claimed one. -/
theorem C4_counterexample :
    rank_residuals yResC4 "bias" 12 (1/20) = .ok [("A", 0)] ∧
    meanAbsResidual (groupVals yResC4 "A") = 1 ∧
    rank_residuals yResC4 "bias" 12 (1/20) ≠
      .ok [("A", meanAbsResidual (groupVals yResC4 "A"))] := by
  refine ⟨?_, ?_, ?_⟩
  · simp [rank_residuals, panelEntities, uniqueAux, yResC4, groupVals, mean,
      sortScores, insertScore, keyBefore]
  · simp [meanAbsResidual, groupVals, yResC4, mean]
  · simp [rank_residuals, panelEntities, uniqueAux, yResC4, groupVals, mean,
      meanAbsResidual, sortScores, insertScore, keyBefore]

/-- C4 amended: for the criteria bias and abs_bias, rank_residuals sorts by
the absolute value of the per-entity mean residual |mean(residuals)| (not by
the mean of the absolute residuals): every row of the returned table carries
that value for its entity. -/
theorem C4_bias_abs_of_mean (y : Panel) (sb : String)
    (hsb : sb = "bias" ∨ sb = "abs_bias") :
    ∃ t, rank_residuals y sb 12 (1/20) = .ok t ∧
      ∀ p ∈ t, p.2 = |mean (groupVals y p.1)| := by
  have main : ∀ p ∈ sortScores false
      ((panelEntities y).map (fun e => (e, |mean (groupVals y e)|))),
      p.2 = |mean (groupVals y p.1)| := by
    intro p hp
    rcases List.mem_map.mp (mem_sortScores hp) with ⟨e, _, he⟩
    rw [← he]
  rcases hsb with h | h <;> subst h
  · exact ⟨_, rfl, main⟩
  · exact ⟨_, rfl, main⟩

/-! ### Claim C3 -/

/-- C3: the claim says rank_residuals accepts every criterion of
{bias, abs_bias, normality, autocor_lb, autocor_bg}.  The code's
sort_by_to_expr dict holds only bias, abs_bias and normality, so autocor_lb
and autocor_bg fail with KeyError at the lookup (the Ljung-Box engine is
never wired in), and the normality expression hands each group Series to the
frame-level normality_test, which fails with AttributeError; only bias and
abs_bias return a table.  The code's own RESIDUALS_SORT_BY Literal type
declares all five criteria. -/
theorem C3_rank_residuals_criteria :
    rank_residuals yResC4 "autocor_lb" 12 (1/20) = .error .keyError ∧
    rank_residuals yResC4 "autocor_bg" 12 (1/20) = .error .keyError ∧
    rank_residuals yResC4 "normality" 12 (1/20) = .error .attributeError ∧
    rank_residuals yResC4 "bias" 12 (1/20) = .ok [("A", 0)] := by
  refine ⟨rfl, rfl, rfl, ?_⟩
  simp [rank_residuals, panelEntities, uniqueAux, yResC4, groupVals, mean,
    sortScores, insertScore, keyBefore]

/-- C4 witness: the amended theorem applied to the concrete residual panel. -/
theorem C4_bias_abs_of_mean_witness :
    ("bias" = "bias" ∨ "bias" = "abs_bias") ∧
    (∃ t, rank_residuals yResC4 "bias" 12 (1/20) = .ok t ∧
      ∀ p ∈ t, p.2 = |mean (groupVals yResC4 p.1)|) :=
  ⟨Or.inl rfl, C4_bias_abs_of_mean yResC4 "bias" (Or.inl rfl)⟩

/-! ### Claims C5 and C6 -/

/-- C5: for every entity, the Ljung-Box Q-statistic at lag depth k equals
n*(n+2) times the cumulative sum over i from 1 to k of acf[i]^2/(n-i), where
n is the entity's series length and acf[i] is the lag-i autocorrelation
pl.corr(x, x.shift(i), ddof=i). -/
theorem C5_ljung_box_qstat (sqrtF : ℚ → ℚ) (X : Panel) (maxLags k : ℕ) (e : Entity)
    (he : e ∈ panelEntities X) (hk1 : 1 ≤ k) (hk2 : k ≤ maxLags) :
    (e, qstat_ljung_box (ljung_box_terms sqrtF (groupVals X e) maxLags)
        (groupVals X e).length) ∈ ljung_box_test sqrtF X maxLags ∧
    (qstat_ljung_box (ljung_box_terms sqrtF (groupVals X e) maxLags)
        (groupVals X e).length)[k - 1]? =
      some (((groupVals X e).length : ℚ) * (((groupVals X e).length : ℚ) + 2) *
        sumFrom (fun i => (plCorrShift sqrtF (groupVals X e) i i) ^ 2 /
          (((groupVals X e).length : ℚ) - (i : ℚ))) 1 k) := by
  constructor
  · exact List.mem_map.mpr ⟨e, he, rfl⟩
  · have hlen : (ljung_box_terms sqrtF (groupVals X e) maxLags).length = maxLags := by
      simp [ljung_box_terms]
    have hk3 : k - 1 < (ljung_box_terms sqrtF (groupVals X e) maxLags).length := by
      rw [hlen]; omega
    rw [qstat_ljung_box, cumsum, List.getElem?_map,
      cumsumFrom_getElem? _ _ _ hk3]
    have hk4 : k - 1 + 1 = k := by omega
    rw [hk4, ljung_box_terms, ← List.map_take, take_range' 1 k maxLags hk2,
      sum_map_range']
    simp

/-- C5 witness: the formula instantiated on the concrete one-entity panel of
length 4, with max_lags = 2 and lag depth k = 1. -/
theorem C5_ljung_box_qstat_witness :
    ("A" ∈ panelEntities xLB ∧ 1 ≤ 1 ∧ 1 ≤ 2) ∧
    (("A", qstat_ljung_box (ljung_box_terms zeroF (groupVals xLB "A") 2)
        (groupVals xLB "A").length) ∈ ljung_box_test zeroF xLB 2 ∧
     (qstat_ljung_box (ljung_box_terms zeroF (groupVals xLB "A") 2)
        (groupVals xLB "A").length)[1 - 1]? =
      some (((groupVals xLB "A").length : ℚ) * (((groupVals xLB "A").length : ℚ) + 2) *
        sumFrom (fun i => (plCorrShift zeroF (groupVals xLB "A") i i) ^ 2 /
          (((groupVals xLB "A").length : ℚ) - (i : ℚ))) 1 1)) :=
  ⟨⟨by decide, by decide, by decide⟩,
    C5_ljung_box_qstat zeroF xLB 2 1 "A" (by decide) (by decide) (by decide)⟩

/-- C6: for every entity whose series length exceeds max_lags, the Q-statistic
sequence is non-decreasing in lag depth, because each added term
acf[i]^2/(n-i) is non-negative. -/
theorem C6_qstat_monotone (sqrtF : ℚ → ℚ) (X : Panel) (maxLags : ℕ) (e : Entity)
    (he : e ∈ panelEntities X) (hn : maxLags < (groupVals X e).length) :
    (e, qstat_ljung_box (ljung_box_terms sqrtF (groupVals X e) maxLags)
        (groupVals X e).length) ∈ ljung_box_test sqrtF X maxLags ∧
    List.Chain' (· ≤ ·)
      (qstat_ljung_box (ljung_box_terms sqrtF (groupVals X e) maxLags)
        (groupVals X e).length) := by
  constructor
  · exact List.mem_map.mpr ⟨e, he, rfl⟩
  · have hscale : (0:ℚ) ≤ ((groupVals X e).length : ℚ) *
        (((groupVals X e).length : ℚ) + 2) := by positivity
    rw [qstat_ljung_box, cumsum, List.chain'_map]
    have hchain : List.Chain' (· ≤ ·)
        (cumsumFrom 0 (ljung_box_terms sqrtF (groupVals X e) maxLags)) := by
      apply chain'_le_cumsumFrom
      intro x hx
      rcases List.mem_map.mp hx with ⟨i, hi, hix⟩
      rcases List.mem_range'_1.mp hi with ⟨h1, h2⟩
      have hiq : (i:ℚ) < ((groupVals X e).length:ℚ) := by
        have : i < (groupVals X e).length := by omega
        exact_mod_cast this
      rw [← hix]
      apply div_nonneg (sq_nonneg _)
      linarith
    refine List.Chain'.imp ?_ hchain
    intro a b hab
    exact mul_le_mul_of_nonneg_left hab hscale

/-- C6 witness: monotonicity instantiated on the concrete one-entity panel of
length 4 with max_lags = 2. -/
theorem C6_qstat_monotone_witness :
    ("A" ∈ panelEntities xLB ∧ 2 < (groupVals xLB "A").length) ∧
    (("A", qstat_ljung_box (ljung_box_terms zeroF (groupVals xLB "A") 2)
        (groupVals xLB "A").length) ∈ ljung_box_test zeroF xLB 2 ∧
     List.Chain' (· ≤ ·)
       (qstat_ljung_box (ljung_box_terms zeroF (groupVals xLB "A") 2)
         (groupVals xLB "A").length)) :=
  ⟨⟨by decide, by decide⟩, C6_qstat_monotone zeroF xLB 2 "A" (by decide) (by decide)⟩

/-! ### Except lemmas -/

theorem mapExcept_isOk {α β : Type} (f : α → Except PyError β) (l : List α)
    (h : ∀ x ∈ l, exceptOk (f x) = true) : exceptOk (mapExcept f l) = true := by
  induction l with
  | nil => rfl
  | cons x xs ih =>
    have hx := h x (by simp)
    rw [mapExcept]
    cases hfx : f x with
    | error e => rw [hfx] at hx; simp [exceptOk] at hx
    | ok y =>
      have hxs := ih (fun z hz => h z (by simp [hz]))
      cases hrest : mapExcept f xs with
      | error e => rw [hrest] at hxs; simp [exceptOk] at hxs
      | ok ys => simp [exceptOk]

theorem mapExcept_fails {α β : Type} (f : α → Except PyError β) (l : List α)
    (x : α) (hx : x ∈ l) (h : exceptOk (f x) = false) :
    exceptOk (mapExcept f l) = false := by
  induction l with
  | nil => simp at hx
  | cons y ys ih =>
    rw [mapExcept]
    rcases List.mem_cons.mp hx with h' | h'
    · rw [← h'] at *
      cases hfx : f x with
      | error e => simp [exceptOk]
      | ok v => rw [hfx] at h; simp [exceptOk] at h
    · cases hfy : f y with
      | error e => simp [exceptOk]
      | ok v =>
        have := ih h'
        cases hrest : mapExcept f ys with
        | error e => simp [exceptOk]
        | ok vs => rw [hrest] at this; simp [exceptOk] at this

/-! ### ACF length lemmas -/

theorem acf_formula_fst_length (sqrtF : ℚ → ℚ) (xs : List ℚ) (maxLags : ℕ) :
    ((acf_formula sqrtF xs maxLags).1).length = maxLags + 1 := by
  simp [acf_formula]

theorem acf_confint_formula_length (sqrtF : ℚ → ℚ) (acfL : List ℚ) (n : ℕ)
    (ppf : ℚ) : (acf_confint_formula sqrtF acfL n ppf).length = acfL.length := by
  simp [acf_confint_formula, cumsum, cumsumFrom_length]

theorem acfEntityIntervals_length (sqrtF : ℚ → ℚ) (ppf : ℚ) (xs : List ℚ)
    (maxLags : ℕ) (h : 1 ≤ maxLags) :
    (acfEntityIntervals sqrtF ppf xs maxLags).length = maxLags + 1 := by
  simp [acfEntityIntervals, acf_confint_formula_length, acf_formula_fst_length]
  omega

/-! ### Claim C2 -/

/-- C2: the claim says interval[k] = z * sqrt(var_acf[k]/n) with
var_acf[k] = 1 + 2 * sum over j in 1..k-1 of acf[j]^2 for every lag k >= 1.
The code passes the full acf column, lag 0 included, to
acf_confint_formula's cumulative sum, so the interval the code produces at
lag k >= 2 carries the extra lag-0 term 2 * acf[0]^2 = 2 inside the sqrt.
On the one-entity panel with values [1, 2, 3, 4] and max_lags = 2 (sqrt and
quantile replaced by the transparent identity stand-in, ppf = 1, so both
sides expose their var/n argument): acf[1] = 1, and at lag k = 2 the code
yields (1 + 2*(acf[0]^2 + acf[1]^2))/4 = 5/4 while the claimed formula
yields (1 + 2*acf[1]^2)/4 = 3/4.  (The n in both is the original per-entity
length 4, as the claim states; that part of the claim is what the code
does.) -/
theorem C2_confint_includes_lag0 :
    (acfEntityIntervals idQ 1 (groupVals xLB "A") 2).getD 2 0 = 5/4 ∧
    bartlettIntervalSpec idQ ((acf_formula idQ (demean (groupVals xLB "A")) 2).1)
      (groupVals xLB "A").length 1 2 = 3/4 ∧
    (acfEntityIntervals idQ 1 (groupVals xLB "A") 2).getD 2 0 ≠
      bartlettIntervalSpec idQ ((acf_formula idQ (demean (groupVals xLB "A")) 2).1)
        (groupVals xLB "A").length 1 2 := by
  refine ⟨?_, ?_, ?_⟩ <;>
    simp [acfEntityIntervals, acf_confint_formula, acf_formula,
      bartlettIntervalSpec, demean, cumsum, cumsumFrom, plCorrShift, covDdof,
      varDdof, alignedPairs, mean, groupVals, xLB, idQ, sumFrom,
      List.range'] <;> norm_num

/-! ### Claim C8 -/

/-- C8 counterexample: alpha = 3/2 lies outside (0, 1), yet acf does not fail:
there is no parameter validation and no InvalidParameter error anywhere in
the code, and the whole call succeeds. -/
theorem C8_counterexample :
    ¬ ((3/2 : ℚ) < 1) ∧ exceptOk (acf idQ idQ xLB 1 (3/2)) = true := by
  constructor
  · norm_num
  · apply mapExcept_isOk
    intro e _
    rw [if_pos]
    · rfl
    · rw [acf_formula_fst_length, acfEntityIntervals_length]
      omega

/-- C8 amended: there is no dedicated InvalidParameter error and no
parameter validation: acf succeeds for every alpha whenever max_lags >= 1
(an out-of-range alpha merely feeds an out-of-range probability to the
external quantile primitive), and an unrecognized sort-criterion name fails
the ranking call only through generic Python failures — AttributeError from
getattr(pl, sort_by) in _rank_entities_by_stat, and TypeError in the metric
path of the _rank_entities dispatch, where line 187 calls the dict returned
by SORT_BY_TO_METRIC instead of subscripting it, failing for every criterion
before any lookup. -/
theorem C8_no_param_validation (sqrtF normPpf : ℚ → ℚ)
    (metricReg : String → Panel → Panel → ScoreTable) (X yp yt : Panel)
    (maxLags : ℕ) (alpha : ℚ) (d : Bool) (h : 1 ≤ maxLags) :
    exceptOk (acf sqrtF normPpf X maxLags alpha) = true ∧
    _rank_entities_by_stat sqrtF yt "not_a_criterion" d = .error .attributeError ∧
    _rank_entities sqrtF metricReg yp yt "not_a_criterion" d = .error .typeError := by
  refine ⟨?_, rfl, ?_⟩
  · apply mapExcept_isOk
    intro e _
    rw [if_pos]
    · rfl
    · rw [acf_formula_fst_length, acfEntityIntervals_length _ _ _ _ h]
  · simp [_rank_entities, _rank_entities_by_score]

/-- C8 witness: the amended behavior at max_lags = 1, alpha = 3/2, on the
concrete one-entity panel. -/
theorem C8_no_param_validation_witness :
    1 ≤ 1 ∧
    (exceptOk (acf idQ idQ xLB 1 (3/2)) = true ∧
     _rank_entities_by_stat idQ xLB "not_a_criterion" false =
       .error .attributeError ∧
     _rank_entities idQ reg0 xLB xLB "not_a_criterion" false =
       .error .typeError) :=
  ⟨Nat.le_refl 1,
    C8_no_param_validation idQ idQ reg0 xLB xLB xLB 1 (3/2) false (Nat.le_refl 1)⟩

/-! ### FVA lemmas -/

theorem mem_insertFva {d : Bool} {x z : FvaRow} {l : List FvaRow}
    (h : z ∈ insertFva d x l) : z = x ∨ z ∈ l := by
  induction l with
  | nil =>
    rw [insertFva] at h
    exact Or.inl (List.mem_singleton.mp h)
  | cons y ys ih =>
    rw [insertFva] at h
    split at h
    · rcases List.mem_cons.mp h with h' | h'
      · exact Or.inl h'
      · exact Or.inr h'
    · rcases List.mem_cons.mp h with h' | h'
      · exact Or.inr (List.mem_cons.mpr (Or.inl h'))
      · rcases ih h' with h'' | h''
        · exact Or.inl h''
        · exact Or.inr (List.mem_cons.mpr (Or.inr h''))

theorem mem_sortFva {d : Bool} {z : FvaRow} {l : List FvaRow}
    (h : z ∈ sortFva d l) : z ∈ l := by
  induction l with
  | nil => simp [sortFva] at h
  | cons y ys ih =>
    rw [sortFva] at h
    rcases mem_insertFva h with h' | h'
    · simp [h']
    · simp [ih h']

/-- In a score table with pairwise-distinct entity keys, filtering by the key
of a member row returns exactly that row. -/
theorem filter_key_single (s : ScoreTable) (hnd : (s.map Prod.fst).Nodup)
    (p : Entity × ℚ) (hp : p ∈ s) :
    s.filter (fun b => b.1 == p.1) = [p] := by
  induction s with
  | nil => cases hp
  | cons q qs ih =>
    rw [List.map_cons, List.nodup_cons] at hnd
    rcases List.mem_cons.mp hp with h | h
    · subst h
      have hnil : qs.filter (fun b => b.1 == p.1) = [] := by
        apply List.filter_eq_nil_iff.mpr
        intro b hb
        simp only [beq_iff_eq]
        intro hh
        exact hnd.1 (List.mem_map.mpr ⟨b, hb, hh⟩)
      rw [List.filter_cons_of_pos (by simp), hnil]
    · have hq : (q.1 == p.1) = false := by
        apply beq_eq_false_iff_ne.mpr
        intro hh
        exact hnd.1 (hh ▸ List.mem_map.mpr ⟨p, h, rfl⟩)
      rw [List.filter_cons_of_neg (by simp [hq])]
      exact ih hnd.2 h

/-! ### Claim C7 -/

/-- C7: rank_fva called with y_pred_bench identical to y_pred gives every
entity uplift = 0 (bench_score - score with both scores equal) and
has_uplift = false (0 > 0 fails), for any scoring metric that returns one
score per entity. -/
theorem C7_fva_identical (scoring : Metric) (y_true y_pred : Panel)
    (descending : Bool) (s : ScoreTable)
    (hs : scoring y_true (.panel y_pred) = .ok s)
    (hnd : (s.map Prod.fst).Nodup) :
    ∃ t, rank_fva y_true y_pred (some y_pred) (some scoring) descending = .ok t ∧
      ∀ r ∈ t, r.uplift = some 0 ∧ r.has_uplift = some false := by
  have hr : rank_fva y_true y_pred (some y_pred) (some scoring) descending =
      .ok (sortFva descending ((leftJoinScores s s).map fvaRowOf)) := by
    unfold rank_fva
    simp only [Option.getD, hs]
  refine ⟨_, hr, ?_⟩
  intro r hrm
  rcases List.mem_map.mp (mem_sortFva hrm) with ⟨t, ht, hrt⟩
  rcases List.mem_flatMap.mp ht with ⟨p, hp, hpt⟩
  rw [filter_key_single s hnd p hp] at hpt
  simp only [List.map_cons, List.map_nil, List.mem_singleton] at hpt
  rw [← hrt, hpt]
  constructor
  · simp [fvaRowOf]
  · simp only [fvaRowOf, Option.map_some', sub_self]
    rw [decide_eq_false (lt_irrefl 0)]

/-- C7 witness: the property applied to concrete panels with the concrete
one-entity scoring stand-in. -/
theorem C7_fva_identical_witness :
    (scoringW yTrueC1 (.panel yPredC1) = .ok [("A", 1)] ∧
     ((([("A", (1:ℚ))]).map Prod.fst).Nodup)) ∧
    (∃ t, rank_fva yTrueC1 yPredC1 (some yPredC1) (some scoringW) false = .ok t ∧
      ∀ r ∈ t, r.uplift = some 0 ∧ r.has_uplift = some false) :=
  ⟨⟨rfl, by simp⟩,
    C7_fva_identical scoringW yTrueC1 yPredC1 false [("A", 1)] rfl (by simp)⟩

/-! ### Claim C10 -/

/-- C10: calling rank_fva with y_pred_bench omitted (None) never returns an
uplift table: the None default is replaced by the empty dict {}, the default
smape scoring is applied to it in place of a panel, and the call fails. -/
theorem C10_fva_requires_bench (y_true y_pred : Panel) (descending : Bool) :
    rank_fva y_true y_pred none none descending = .error .attributeError := rfl

/-! ### Claim C9 -/

/-- C9 counterexample: entity B is below the normality primitive's minimum
sample size while entity A is not, and normality_test fails for the whole
batch instead of returning A's statistic alongside a skipped B. -/
theorem C9_counterexample :
    (groupVals xNorm "B").length < 8 ∧ ¬ ((groupVals xNorm "A").length < 8) ∧
    normality_test normaltestModel xNorm = .error .insufficientSamples := by
  refine ⟨by decide, by decide, rfl⟩

/-- C9 amended: when any entity's series makes the normality primitive fail
(for instance, below its minimum sample size), the failure aborts the whole
normality_test call: no per-entity result is produced for the other
entities. -/
theorem C9_short_entity_aborts_batch (prim : List ℚ → Except PyError ℚ)
    (X : Panel) (e : Entity) (he : e ∈ panelEntities X)
    (hf : exceptOk (prim (groupVals X e)) = false) :
    exceptOk (normality_test prim X) = false := by
  unfold normality_test
  apply mapExcept_fails _ _ e he
  cases hp : prim (groupVals X e) with
  | error err => simp [Except.map, exceptOk]
  | ok v => rw [hp] at hf; simp [exceptOk] at hf

/-- C9 witness: the amended behavior on the concrete panel whose B entity
has only 3 samples. -/
theorem C9_short_entity_aborts_batch_witness :
    ("B" ∈ panelEntities xNorm ∧
     exceptOk (normaltestModel (groupVals xNorm "B")) = false) ∧
    exceptOk (normality_test normaltestModel xNorm) = false :=
  ⟨⟨by decide, by decide⟩,
    C9_short_entity_aborts_batch normaltestModel xNorm "B" (by decide) (by decide)⟩

end Functime
